import Mathlib

/-!
Verification of the address/distance system ("sistema-de-distancias").

The development shallowly embeds the two Python services:
 * `api-secundaria/app.py`  — distance engine, configuration store, calculation records;
 * `api-principal/main.py`  — address cache/resolver, distance orchestrator, audit history.

SQLite tables are modelled as Lean lists of row structures; timestamps are
natural numbers counted in days (the code only ever compares timestamps via
`(now - last).days < 30` and stores them opaquely otherwise); `uuid4()` draws
are modelled as explicitly passed identifiers; the ViaCEP remote collaborator
and the secondary "engine" collaborator are modelled as function parameters.
Python floats are idealised as real numbers (ℝ); the deterministic coordinate
synthesis is exact in ℚ.
-/

namespace DistSys

/-! ## String utilities shared by both services -/

/-- Models Python `s.lower()` character-wise via `Char.toLower`
(the source only ever feeds it free-text city/state/address strings). -/
def pyLower (s : String) : String := ⟨s.data.map Char.toLower⟩

/-- Models Python `sum(ord(c) for c in s)`. -/
def ordSum (s : String) : Nat := (s.data.map Char.toNat).sum

/-- Models Python `''.join(filter(str.isdigit, s))` from `get_address`. -/
def digitsOnly (s : String) : String := ⟨s.data.filter Char.isDigit⟩

/-- Models Python `s.replace("-", "")` as used on ViaCEP postal codes. -/
def replaceDash (s : String) : String := ⟨s.data.filter (fun c => c ≠ '-')⟩

/-- Numeric value of a digit run, most significant first
(helper for the model of Python `float`). -/
def digitsVal (l : List Char) : Nat := l.foldl (fun a c => a * 10 + (c.toNat - 48)) 0

/-- Splits a character list at the first character satisfying `p`;
returns the prefix and, when a split happened, the remainder. -/
def splitFirst (p : Char → Bool) : List Char → List Char × Option (List Char)
  | [] => ([], none)
  | c :: r =>
    if p c then ([], some r)
    else
      let out := splitFirst p r
      (c :: out.1, out.2)

/-- Reads an optional leading sign, returning the sign as `1` or `-1`. -/
def readSign : List Char → Int × List Char
  | '+' :: r => (1, r)
  | '-' :: r => (-1, r)
  | r => (1, r)

/-- Strips leading and trailing whitespace (the stripping `float` performs
on its string argument). -/
def stripWs (l : List Char) : List Char :=
  ((l.dropWhile Char.isWhitespace).reverse.dropWhile Char.isWhitespace).reverse

/-- Parsed components of a decimal float literal: sign, value of the
integer digits, value of the fraction digits, number of fraction digits,
decimal exponent. -/
structure PyFloatParts where
  sign : Int
  ipart : Nat
  fpart : Nat
  fracLen : Nat
  expo : Int
deriving DecidableEq

/-- Syntactic half of the model of Python's builtin `float(s)` on decimal
literals: optional surrounding whitespace, optional sign, digits with an
optional fraction part, optional decimal exponent; `none` models the
`ValueError` that `float` raises on anything unparseable.  Special
spellings (`inf`, `nan`, underscore separators) are outside the model;
every configuration value actually exercised by the claims is covered
exactly. -/
def pyFloatParts (s : String) : Option PyFloatParts :=
  let t := stripWs s.data
  let st := readSign t
  let me := splitFirst (fun c => c == 'e' || c == 'E') st.2
  let ifr := splitFirst (fun c => c == '.') me.1
  let ip := ifr.1
  let fp := (ifr.2).getD []
  if ip.all Char.isDigit && fp.all Char.isDigit && !(ip.isEmpty && fp.isEmpty) then
    match me.2 with
    | none => some { sign := st.1, ipart := digitsVal ip, fpart := digitsVal fp,
                     fracLen := fp.length, expo := 0 }
    | some e =>
      let es := readSign e
      if !es.2.isEmpty && es.2.all Char.isDigit then
        some { sign := st.1, ipart := digitsVal ip, fpart := digitsVal fp,
               fracLen := fp.length, expo := es.1 * (digitsVal es.2 : Int) }
      else none
  else none

/-- Numeric value of parsed float components. -/
def partsToRat (p : PyFloatParts) : ℚ :=
  (p.sign : ℚ) * ((p.ipart : ℚ) + (p.fpart : ℚ) / (10 : ℚ) ^ p.fracLen) * (10 : ℚ) ^ p.expo

/-- Model of Python's builtin `float(s)` on strings: parse, then evaluate. -/
def pyFloat (s : String) : Option ℚ := (pyFloatParts s).map partsToRat

/-! ## Secondary service (`api-secundaria/app.py`) -/

/-- Row of the `configurations` table
(`id TEXT PRIMARY KEY, name TEXT, value TEXT, updated_at TEXT`). -/
structure ConfigRow where
  id : String
  name : String
  value : String
  updated_at : Nat
deriving DecidableEq

/-- The seed data `default_configs` from `init_db` — `(key, value, name)` triples. -/
def default_configs : List (String × String × String) :=
  [("direct_multiplier", "1.2", "Multiplicador para ajuste de distancia em linha reta"),
   ("walking_multiplier", "1.4", "Multiplicador para ajuste de distancia a pe"),
   ("driving_multiplier", "1.1", "Multiplicador para ajuste de distancia de carro"),
   ("default_unit", "km", "Unidade padrao para distancias (km ou mi)")]

/-- SQL `SELECT 1 FROM configurations WHERE id = ?` viewed as a Boolean. -/
def hasKey (rows : List ConfigRow) (k : String) : Bool :=
  rows.any (fun r => r.id == k)

/-- SQL `INSERT OR IGNORE INTO configurations` keyed on `id`. -/
def insertOrIgnore (rows : List ConfigRow) (r : ConfigRow) : List ConfigRow :=
  if hasKey rows r.id then rows else rows ++ [r]

/-- The configuration-seeding half of `init_db`: one `INSERT OR IGNORE`
per entry of `default_configs` (the `CREATE TABLE IF NOT EXISTS` statements
have no content in the list model). -/
def init_db_configs (now : Nat) (rows : List ConfigRow) : List ConfigRow :=
  default_configs.foldl
    (fun acc kvn => insertOrIgnore acc { id := kvn.1, name := kvn.2.2, value := kvn.2.1, updated_at := now })
    rows

/-- `get_config_value(key, default)` without its default: `SELECT value FROM
configurations WHERE id = ?`, `none` when no row matches.  The Python default
argument is applied at each call site, as in the source. -/
def get_config_value (rows : List ConfigRow) (key : String) : Option String :=
  (rows.find? (fun r => r.id == key)).map (fun r => r.value)

/-- `get_coordinates(city, state, address)` — the deterministic coordinate
synthesizer.  All arithmetic is exact here (small integers and a division by
1000), so ℚ represents the Python floats faithfully. -/
def get_coordinates (city state address : String) : ℚ × ℚ :=
  let city_hash := ordSum (pyLower city)
  let state_hash := ordSum (pyLower state)
  let lat : ℚ := -30 + (city_hash % 25 : Nat)
  let lng : ℚ := -70 + (state_hash % 35 : Nat)
  let addr_hash := ordSum (pyLower address)
  let lat_variation : ℚ := (addr_hash % 100 : Nat) / 1000
  let lng_variation : ℚ := (addr_hash % 100 : Nat) / 1000
  (lat + lat_variation, lng + lng_variation)

/-- Models Python `math.radians`. -/
noncomputable def radians (x : ℝ) : ℝ := x * Real.pi / 180

/-- `calculate_haversine_distance(lat1, lon1, lat2, lon2)` transcribed from
the source (R = 6371.0; `math.asin`/`math.sqrt` idealised over ℝ). -/
noncomputable def calculate_haversine_distance (lat1 lon1 lat2 lon2 : ℝ) : ℝ :=
  let R : ℝ := 6371.0
  let lat1_rad := radians lat1
  let lon1_rad := radians lon1
  let lat2_rad := radians lat2
  let lon2_rad := radians lon2
  let dlon := lon2_rad - lon1_rad
  let dlat := lat2_rad - lat1_rad
  let a := Real.sin (dlat / 2) ^ 2 +
    Real.cos lat1_rad * Real.cos lat2_rad * Real.sin (dlon / 2) ^ 2
  let c := 2 * Real.arcsin (Real.sqrt a)
  R * c

/-- Models Python `round(x, 2)` as rounding `100·x` to the nearest integer.
(Python rounds exact halves to even; no claim depends on tie behaviour.) -/
noncomputable def round2 (x : ℝ) : ℝ := (round (100 * x) : ℤ) / 100

/-- The `origin` / `destination` request bodies of `POST /calculate`. -/
structure OriginDestination where
  city : String
  state : String
  address : String
deriving DecidableEq

/-- Row of the `calculations` table (origin/destination descriptors are
copied by value, exactly as the flattened SQL columns do). -/
structure CalcRow where
  id : String
  origin_city : String
  origin_state : String
  origin_address : String
  destination_city : String
  destination_state : String
  destination_address : String
  mode : String
  distance : ℝ
  unit : String
  created_at : Nat

/-- Errors surfaced by the secondary service: the two `HTTPException`s it
raises deliberately, plus the unhandled Python `ValueError` that escapes
`float(...)` in `calculate_distance` (an HTTP 500, outside the taxonomy). -/
inductive SecError where
  | noValidKeys   -- 400 "Nenhuma configuração válida foi fornecida"
  | notFound      -- 404 "Cálculo não encontrado"
  | valueError    -- unhandled ValueError from float(...)
deriving DecidableEq

/-- The JSON body returned by `POST /calculate`. -/
structure SecResponse where
  id : String
  origin_city : String
  origin_state : String
  origin_coordinates : ℝ × ℝ
  destination_city : String
  destination_state : String
  destination_coordinates : ℝ × ℝ
  distance : ℝ
  unit : String
  mode : String
  created_at : Nat

/-- The multiplier resolution inside `calculate_distance`:
`float(get_config_value(f"{mode}_multiplier", 1.0))`.  An absent key yields
the Python float default `1.0`; a present key is parsed by `float`, and
`none` here is the unhandled `ValueError`. -/
def parsedMultiplier (configurations : List ConfigRow) (mode : String) : Option ℚ :=
  match get_config_value configurations (mode ++ "_multiplier") with
  | none => some 1
  | some s => pyFloat s

/-- `POST /calculate` (`calculate_distance` in `app.py`): synthesize
coordinates, haversine, multiplier, unit conversion, round to 2 decimals,
insert a `calculations` row, return the response.  `calculation_id` models
the `uuid4()` draw and `now` the `datetime.now()` timestamp. -/
noncomputable def calculate_distance_sec (configurations : List ConfigRow)
    (calculations : List CalcRow) (origin destination : OriginDestination)
    (mode : String) (calculation_id : String) (now : Nat) :
    Except SecError (SecResponse × List CalcRow) :=
  let oc := get_coordinates origin.city origin.state origin.address
  let dc := get_coordinates destination.city destination.state destination.address
  let base_distance := calculate_haversine_distance (oc.1 : ℝ) (oc.2 : ℝ) (dc.1 : ℝ) (dc.2 : ℝ)
  match parsedMultiplier configurations mode with
  | none => .error .valueError
  | some multiplier =>
    let distance := base_distance * (multiplier : ℝ)
    let unit := (get_config_value configurations "default_unit").getD "km"
    let distance := if pyLower unit = "mi" then distance * 0.621371 else distance
    let distance := round2 distance
    let row : CalcRow :=
      { id := calculation_id,
        origin_city := origin.city, origin_state := origin.state,
        origin_address := origin.address,
        destination_city := destination.city, destination_state := destination.state,
        destination_address := destination.address,
        mode := mode, distance := distance, unit := unit, created_at := now }
    .ok ({ id := calculation_id,
           origin_city := origin.city, origin_state := origin.state,
           origin_coordinates := ((oc.1 : ℝ), (oc.2 : ℝ)),
           destination_city := destination.city, destination_state := destination.state,
           destination_coordinates := ((dc.1 : ℝ), (dc.2 : ℝ)),
           distance := distance, unit := unit, mode := mode, created_at := now },
         row :: calculations)

/-- One `UPDATE configurations SET value = ?, updated_at = ? WHERE id = ?`. -/
def updateRow (now : Nat) (k v : String) (rows : List ConfigRow) : List ConfigRow :=
  rows.map (fun r => if r.id == k then { r with value := v, updated_at := now } else r)

/-- The update loop of `PUT /configurations`: each supplied `(key, value)`
pair is written (and recorded as updated) exactly when a row with that id
already exists. -/
def applyUpdates (now : Nat) : List (String × String) → List ConfigRow → List String × List ConfigRow
  | [], rows => ([], rows)
  | (k, v) :: rest, rows =>
    if hasKey rows k then
      let out := applyUpdates now rest (updateRow now k v rows)
      (k :: out.1, out.2)
    else applyUpdates now rest rows

/-- `PUT /configurations` (`update_configuration` in `app.py`). -/
def update_configuration (configurations : List (String × String))
    (rows : List ConfigRow) (now : Nat) :
    Except SecError (List String × List ConfigRow) :=
  let out := applyUpdates now configurations rows
  if out.1 = [] then .error .noValidKeys else .ok out

/-- `DELETE /calculations/{id}` (`delete_calculation` in `app.py`). -/
def delete_calculation (calculations : List CalcRow) (calculation_id : String) :
    Except SecError (List CalcRow) :=
  if calculations.any (fun r => r.id == calculation_id) then
    .ok (calculations.filter (fun r => r.id != calculation_id))
  else .error .notFound

/-! ## Principal service (`api-principal/main.py`) -/

/-- The pydantic `Address` response model. -/
structure Address where
  cep : String
  logradouro : String
  complemento : Option String
  bairro : String
  localidade : String
  uf : String
  ibge : Option String
  gia : Option String
  ddd : Option String
  siafi : Option String
deriving DecidableEq

/-- Row of the `addresses` table; every column stored by `get_address` is a
string (optional payload fields were defaulted to `""` before insertion). -/
structure AddressRow where
  cep : String
  logradouro : String
  complemento : String
  bairro : String
  localidade : String
  uf : String
  ibge : String
  gia : String
  ddd : String
  siafi : String
  last_updated : Nat
deriving DecidableEq

/-- Row of the `history` table. -/
structure HistoryRow where
  id : String
  query_type : String
  query_data : String
  result : String
  created_at : Nat
deriving DecidableEq

/-- A successful JSON body from ViaCEP.  The fields the code accesses by
subscription or passes to `Address(**data)` as required are plain strings;
the optional administrative fields may be missing; `erro` models the
`{"erro": true}` not-found marker. -/
structure ViaCepPayload where
  cep : String
  logradouro : String
  bairro : String
  localidade : String
  uf : String
  complemento : Option String
  ibge : Option String
  gia : Option String
  ddd : Option String
  siafi : Option String
  erro : Bool
deriving DecidableEq

/-- Outcome of one `httpx` GET against ViaCEP: a non-200 status, or a JSON
payload. -/
inductive FetchResult where
  | httpError (status : Nat)
  | ok (data : ViaCepPayload)
deriving DecidableEq

/-- `Address(**data)` on a raw ViaCEP payload (fields passed through
verbatim; missing optionals stay `None`). -/
def payloadToAddress (d : ViaCepPayload) : Address :=
  { cep := d.cep, logradouro := d.logradouro, complemento := d.complemento,
    bairro := d.bairro, localidade := d.localidade, uf := d.uf,
    ibge := d.ibge, gia := d.gia, ddd := d.ddd, siafi := d.siafi }

/-- The normalisation performed by the `INSERT OR REPLACE` in `get_address`:
`data.get(field, "")` for every column and separators stripped from the
postal code, with `last_updated = now`. -/
def payloadToRow (d : ViaCepPayload) (now : Nat) : AddressRow :=
  { cep := replaceDash d.cep, logradouro := d.logradouro,
    complemento := d.complemento.getD "", bairro := d.bairro,
    localidade := d.localidade, uf := d.uf, ibge := d.ibge.getD "",
    gia := d.gia.getD "", ddd := d.ddd.getD "", siafi := d.siafi.getD "",
    last_updated := now }

/-- `Address(**dict(result))` on a cached row (every stored column is a
string, so the optional model fields come back as `some _`). -/
def rowToAddress (r : AddressRow) : Address :=
  { cep := r.cep, logradouro := r.logradouro, complemento := some r.complemento,
    bairro := r.bairro, localidade := r.localidade, uf := r.uf,
    ibge := some r.ibge, gia := some r.gia, ddd := some r.ddd,
    siafi := some r.siafi }

/-- The two tables owned by the principal service (the unrelated `users`
table is omitted: no claim touches it). -/
structure MainState where
  addresses : List AddressRow
  history : List HistoryRow
deriving DecidableEq

/-- `SELECT * FROM addresses WHERE cep = ?` (cep is the primary key). -/
def lookupAddress (rows : List AddressRow) (cep : String) : Option AddressRow :=
  rows.find? (fun r => r.cep == cep)

/-- `INSERT OR REPLACE INTO addresses` keyed on `cep`. -/
def upsertAddress (rows : List AddressRow) (row : AddressRow) : List AddressRow :=
  row :: rows.filter (fun r => r.cep != row.cep)

/-- An opaque stand-in for Python `str(data)` on a ViaCEP payload (the
history `result` column is never parsed back by the code). -/
def reprPayload (d : ViaCepPayload) : String :=
  String.intercalate ", " [d.cep, d.logradouro, d.bairro, d.localidade, d.uf]

/-- Errors surfaced by the principal service, one constructor per distinct
`HTTPException` site. -/
inductive MainError where
  | invalidFormat                  -- 400 "CEP deve conter 8 dígitos"
  | upstream (status : Nat)        -- "Erro ao consultar ViaCEP"
  | notFound                       -- 404 "CEP não encontrado"
  | originUpstream (status : Nat)  -- "Erro ao consultar endereço de origem"
  | originNotFound                 -- 404 "CEP de origem não encontrado"
  | destinationUpstream (status : Nat)
  | destinationNotFound
  | engineError (status : Nat)     -- "Erro ao calcular distância"
  | historyNotFound                -- 404 "Histórico não encontrado"
deriving DecidableEq

/-- Builds a `history` row. -/
def mkHistory (id query_type query_data result : String) (now : Nat) : HistoryRow :=
  { id := id, query_type := query_type, query_data := query_data,
    result := result, created_at := now }

/-- The state written by a successful remote resolution in `get_address`:
upsert of the normalised row plus one `address_query` history entry. -/
def remoteSuccessState (st : MainState) (data : ViaCepPayload) (cepN : String)
    (history_id : String) (now : Nat) : MainState :=
  { addresses := upsertAddress st.addresses (payloadToRow data now),
    history := mkHistory history_id "address_query" cepN (reprPayload data) now :: st.history }

/-- `GET /address/{cep}` (`get_address` in `main.py`).  `viaCep` is the
remote collaborator, `history_id` the `uuid4()` draw, `now` today (in days:
the code only compares `(now - last_updated).days < 30`). -/
def get_address (viaCep : String → FetchResult) (st : MainState) (now : Nat)
    (history_id : String) (cep : String) : Except MainError (Address × MainState) :=
  let cepN := digitsOnly cep
  if cepN.length ≠ 8 then .error .invalidFormat
  else
    let cached :=
      match lookupAddress st.addresses cepN with
      | some row => if now - row.last_updated < 30 then some row else none
      | none => none
    match cached with
    | some row => .ok (rowToAddress row, st)
    | none =>
      match viaCep cepN with
      | .httpError s => .error (.upstream s)
      | .ok data =>
        if data.erro then .error .notFound
        else .ok (payloadToAddress data, remoteSuccessState st data cepN history_id now)

/-- Body of `POST /distances`. -/
structure DistanceRequest where
  origin_cep : String
  destination_cep : String
  travel_mode : String
deriving DecidableEq

/-- The fields of the secondary service's JSON that `main.py` reads. -/
structure EngineOk where
  distance : ℝ
  unit : String

/-- The payload `main.py` posts to the secondary `/calculate` endpoint. -/
structure EnginePayload where
  origin : OriginDestination
  destination : OriginDestination
  mode : String

/-- `DistanceResponse` pydantic model. -/
structure DistanceResponse where
  origin : Address
  destination : Address
  distance : ℝ
  unit : String
  travel_mode : String

/-- An opaque stand-in for `str(request.dict())`. -/
def reprDistanceRequest (r : DistanceRequest) : String :=
  String.intercalate ", " [r.origin_cep, r.destination_cep, r.travel_mode]

/-- An opaque stand-in for `str(distance_data)` (numeric rendering of the
distance is not modelled; the column is never parsed back). -/
def reprEngineOk (e : EngineOk) : String := e.unit

/-- `POST /distances` (`calculate_distance` in `main.py`): fetch both raw
postal codes directly from ViaCEP (no normalisation, no cache, no upsert),
call the secondary engine, append one `distance_calculation` history entry,
and return the response.  `engine` is the network collaborator
(`POST {SECONDARY_API_URL}/calculate`), `.error s` its non-200 statuses. -/
def calculate_distance_main (viaCep : String → FetchResult)
    (engine : EnginePayload → Except Nat EngineOk) (st : MainState) (now : Nat)
    (history_id : String) (request : DistanceRequest) :
    Except MainError (DistanceResponse × MainState) :=
  match viaCep request.origin_cep with
  | .httpError s => .error (.originUpstream s)
  | .ok origin_data =>
    if origin_data.erro then .error .originNotFound
    else
      match viaCep request.destination_cep with
      | .httpError s => .error (.destinationUpstream s)
      | .ok dest_data =>
        if dest_data.erro then .error .destinationNotFound
        else
          let payload : EnginePayload :=
            { origin := { city := origin_data.localidade, state := origin_data.uf,
                          address := origin_data.logradouro ++ ", " ++ origin_data.bairro },
              destination := { city := dest_data.localidade, state := dest_data.uf,
                               address := dest_data.logradouro ++ ", " ++ dest_data.bairro },
              mode := request.travel_mode }
          match engine payload with
          | .error s => .error (.engineError s)
          | .ok distance_data =>
            let entry : HistoryRow :=
              mkHistory history_id "distance_calculation" (reprDistanceRequest request)
                (reprEngineOk distance_data) now
            let st' : MainState := { st with history := entry :: st.history }
            .ok ({ origin := payloadToAddress origin_data,
                   destination := payloadToAddress dest_data,
                   distance := distance_data.distance, unit := distance_data.unit,
                   travel_mode := request.travel_mode }, st')

/-- `DELETE /history/{id}` (`delete_history_item` in `main.py`). -/
def delete_history_item (history : List HistoryRow) (history_id : String) :
    Except MainError (List HistoryRow) :=
  if history.any (fun r => r.id == history_id) then
    .ok (history.filter (fun r => r.id != history_id))
  else .error .historyNotFound

/-! ## Statement-level helpers and spec-side definitions -/

/-- Whether an `Except` result is a success. -/
def isOkResult {ε α : Type} : Except ε α → Bool
  | .ok _ => true
  | .error _ => false

/-- Distance field of a secondary-service result (0 on error). -/
noncomputable def respDistance : Except SecError (SecResponse × List CalcRow) → ℝ
  | .ok (r, _) => r.distance
  | .error _ => 0

/-- Unit field of a secondary-service result. -/
def respUnit : Except SecError (SecResponse × List CalcRow) → String
  | .ok (r, _) => r.unit
  | .error _ => ""

/-- Stored `calculations` table of a secondary-service result. -/
def storedCalcs : Except SecError (SecResponse × List CalcRow) → List CalcRow
  | .ok (_, c) => c
  | .error _ => []

/-- Whether a (fresh, within 30 days) cache hit would serve `cep` from the
addresses table at time `now` — the condition under which `get_address`
answers without a remote call. -/
def freshCacheHit (rows : List AddressRow) (cep : String) (now : Nat) : Bool :=
  match lookupAddress rows cep with
  | some row => now - row.last_updated < 30
  | none => false

/-- The great-circle distance exactly as the spec words it (§4.2):
`a = sin²(Δlat/2) + cos lat1 · cos lat2 · sin²(Δlng/2)`,
`distance_km = 2 · R · asin(√a)` with `R = 6371.0`, both points in radians. -/
noncomputable def haversineSpec (lat1 lng1 lat2 lng2 : ℝ) : ℝ :=
  2 * 6371.0 * Real.arcsin (Real.sqrt
    (Real.sin ((radians lat2 - radians lat1) / 2) ^ 2 +
      Real.cos (radians lat1) * Real.cos (radians lat2) *
        Real.sin ((radians lng2 - radians lng1) / 2) ^ 2))

/-- The configured output unit as the spec words it: `default_unit`,
defaulting to `"km"`. -/
def defaultUnit (configurations : List ConfigRow) : String :=
  (get_config_value configurations "default_unit").getD "km"

/-- The unit-conversion factor as the spec words it: `0.621371` when the
configured unit is miles (case-insensitively), `1` otherwise. -/
noncomputable def milesFactor (configurations : List ConfigRow) : ℝ :=
  if pyLower (defaultUnit configurations) = "mi" then 0.621371 else 1

/-- Result-view of the orchestrator that forgets the address table, used to
state that `POST /distances` neither reads nor writes the address cache. -/
def mainResultView :
    Except MainError (DistanceResponse × MainState) →
      Except MainError (DistanceResponse × List HistoryRow)
  | .ok (r, s) => .ok (r, s.history)
  | .error e => .error e

/-! ## Basic lemmas about the configuration store -/

theorem updateRow_id (now : Nat) (k v : String) (r : ConfigRow) :
    (if r.id == k then { r with value := v, updated_at := now } else r).id = r.id := by
  by_cases h : r.id == k <;> simp [h]

theorem hasKey_updateRow (now : Nat) (k v : String) (rows : List ConfigRow) (k' : String) :
    hasKey (updateRow now k v rows) k' = hasKey rows k' := by
  induction rows with
  | nil => rfl
  | cons r t ih =>
    simp only [updateRow, List.map_cons, hasKey, List.any_cons] at *
    rw [ih]
    by_cases h : r.id == k <;> simp [h]

theorem applyUpdates_fst (now : Nat) (m : List (String × String)) (rows : List ConfigRow) :
    (applyUpdates now m rows).1 = (m.filter (fun kv => hasKey rows kv.1)).map Prod.fst := by
  induction m generalizing rows with
  | nil => rfl
  | cons kv rest ih =>
    obtain ⟨k, v⟩ := kv
    by_cases h : hasKey rows k
    · simp only [applyUpdates, h, if_true, List.filter_cons, List.map_cons, ih,
        hasKey_updateRow]
    · have hstep : applyUpdates now ((k, v) :: rest) rows = applyUpdates now rest rows := by
        simp [applyUpdates, h]
      rw [hstep, ih, List.filter_cons, if_neg (by simpa using h)]

theorem applyUpdates_hasKey (now : Nat) (m : List (String × String)) (rows : List ConfigRow)
    (k' : String) : hasKey (applyUpdates now m rows).2 k' = hasKey rows k' := by
  induction m generalizing rows with
  | nil => rfl
  | cons kv rest ih =>
    obtain ⟨k, v⟩ := kv
    by_cases h : hasKey rows k
    · simp only [applyUpdates, h, if_true, ih, hasKey_updateRow]
    · have hstep : applyUpdates now ((k, v) :: rest) rows = applyUpdates now rest rows := by
        simp [applyUpdates, h]
      rw [hstep, ih]

/-- **C1** (corrected) — counterexample to the claim as stated.  The claim
says every non-empty map succeeds with all supplied keys reported as
updated; but `update_configuration` writes a supplied key only when a row
with that id already exists, so the non-empty map `{"unknown_key": "5"}`
against the freshly seeded store fails with `NoValidKeys` instead of
succeeding with `["unknown_key"]`. -/
theorem spec_c1_counterexample :
    update_configuration [("unknown_key", "5")] (init_db_configs 0 []) 1 =
      .error .noValidKeys ∧
    ([("unknown_key", "5")] : List (String × String)) ≠ [] := by
  exact ⟨rfl, by decide⟩

/-- **C1** (amended): an update call fails with `NoValidKeys` exactly when
none of the supplied keys already exists in the store; otherwise it succeeds
and reports as updated exactly the supplied keys that exist (in supplied
order, values written through without validation), and the key set of the
store is unchanged (unknown keys are never inserted). -/
theorem spec_c1 (m : List (String × String)) (rows : List ConfigRow) (now : Nat) :
    (update_configuration m rows now = .error .noValidKeys ↔
      ∀ kv ∈ m, hasKey rows kv.1 = false) ∧
    (update_configuration m rows now = .error .noValidKeys ∨
      update_configuration m rows now =
        .ok ((m.filter (fun kv => hasKey rows kv.1)).map Prod.fst,
             (applyUpdates now m rows).2)) ∧
    (∀ k, hasKey (applyUpdates now m rows).2 k = hasKey rows k) := by
  have hfst := applyUpdates_fst now m rows
  have hmain : (applyUpdates now m rows).1 = [] ↔ ∀ kv ∈ m, hasKey rows kv.1 = false := by
    rw [hfst, List.map_eq_nil_iff, List.filter_eq_nil_iff]
    constructor
    · intro h kv hkv
      simpa using h kv hkv
    · intro h kv hkv
      simp [h kv hkv]
  refine ⟨?_, ?_, fun k => applyUpdates_hasKey now m rows k⟩
  · unfold update_configuration
    by_cases h : (applyUpdates now m rows).1 = []
    · simp only [h, if_true]
      simpa using hmain.mp h
    · simp only [h, if_false]
      constructor
      · intro hc; cases hc
      · intro hall; exact absurd (hmain.mpr hall) h
  · unfold update_configuration
    by_cases h : (applyUpdates now m rows).1 = []
    · exact Or.inl (by simp [h])
    · refine Or.inr ?_
      simp only [h, if_false]
      congr 1
      exact Prod.ext hfst rfl

/-- Witness for C1 (amended): a non-empty map whose single key is unknown to
the seeded store; the theorem certifies the `NoValidKeys` failure. -/
theorem spec_c1_witness :
    update_configuration [("bogus", "1")] (init_db_configs 0 []) 7 = .error .noValidKeys :=
  (spec_c1 [("bogus", "1")] (init_db_configs 0 []) 7).1.mpr (by decide)

/-! ## Seeding lemmas (C7) -/

theorem hasKey_insertOrIgnore_self (rows : List ConfigRow) (r : ConfigRow) :
    hasKey (insertOrIgnore rows r) r.id = true := by
  unfold insertOrIgnore
  by_cases h : hasKey rows r.id
  · rw [if_pos h]; exact h
  · rw [if_neg h]
    simp [hasKey, List.any_append]

theorem hasKey_insertOrIgnore_mono (rows : List ConfigRow) (r : ConfigRow) (k : String)
    (h : hasKey rows k = true) : hasKey (insertOrIgnore rows r) k = true := by
  unfold insertOrIgnore
  by_cases hk : hasKey rows r.id
  · rw [if_pos hk]; exact h
  · rw [if_neg hk]
    simp only [hasKey, List.any_append, Bool.or_eq_true]
    exact Or.inl h

theorem insertOrIgnore_of_hasKey (rows : List ConfigRow) (r : ConfigRow)
    (h : hasKey rows r.id = true) : insertOrIgnore rows r = rows := by
  unfold insertOrIgnore
  simp [h]

theorem get_config_value_insertOrIgnore (rows : List ConfigRow) (r : ConfigRow) (k : String)
    (h : hasKey rows k = true) :
    get_config_value (insertOrIgnore rows r) k = get_config_value rows k := by
  unfold insertOrIgnore
  by_cases hk : hasKey rows r.id
  · simp [hk]
  · simp only [hk, if_false, get_config_value, List.find?_append]
    have : (rows.find? (fun x => x.id == k)).isSome := by
      simp only [hasKey, List.any_eq_true] at h
      obtain ⟨a, ha, hak⟩ := h
      exact List.find?_isSome.mpr ⟨a, ha, hak⟩
    obtain ⟨a, ha⟩ := Option.isSome_iff_exists.mp this
    simp [ha]

theorem init_db_hasKey (now : Nat) (rows : List ConfigRow) :
    hasKey (init_db_configs now rows) "direct_multiplier" = true ∧
    hasKey (init_db_configs now rows) "walking_multiplier" = true ∧
    hasKey (init_db_configs now rows) "driving_multiplier" = true ∧
    hasKey (init_db_configs now rows) "default_unit" = true := by
  simp only [init_db_configs, default_configs, List.foldl]
  refine ⟨?_, ?_, ?_, ?_⟩
  · exact hasKey_insertOrIgnore_mono _ _ _ (hasKey_insertOrIgnore_mono _ _ _
      (hasKey_insertOrIgnore_mono _ _ _ (hasKey_insertOrIgnore_self rows _)))
  · exact hasKey_insertOrIgnore_mono _ _ _ (hasKey_insertOrIgnore_mono _ _ _
      (hasKey_insertOrIgnore_self _ _))
  · exact hasKey_insertOrIgnore_mono _ _ _ (hasKey_insertOrIgnore_self _ _)
  · exact hasKey_insertOrIgnore_self _ _

theorem seedList_noop (seeds : List (String × String × String)) (now : Nat)
    (rows : List ConfigRow) (h : ∀ s ∈ seeds, hasKey rows s.1 = true) :
    seeds.foldl
      (fun acc kvn => insertOrIgnore acc
        { id := kvn.1, name := kvn.2.2, value := kvn.2.1, updated_at := now }) rows = rows := by
  induction seeds generalizing rows with
  | nil => rfl
  | cons s t ih =>
    simp only [List.foldl]
    rw [insertOrIgnore_of_hasKey rows _ (h s (by simp))]
    exact ih rows (fun x hx => h x (by simp [hx]))

theorem get_config_value_seedList (seeds : List (String × String × String)) (now : Nat)
    (rows : List ConfigRow) (k : String) (h : hasKey rows k = true) :
    get_config_value
      (seeds.foldl
        (fun acc kvn => insertOrIgnore acc
          { id := kvn.1, name := kvn.2.2, value := kvn.2.1, updated_at := now }) rows) k =
      get_config_value rows k := by
  induction seeds generalizing rows with
  | nil => rfl
  | cons s t ih =>
    simp only [List.foldl]
    rw [ih _ (hasKey_insertOrIgnore_mono rows _ k h),
      get_config_value_insertOrIgnore rows _ k h]

theorem init_db_idem (now now' : Nat) (rows : List ConfigRow) :
    init_db_configs now' (init_db_configs now rows) = init_db_configs now rows := by
  obtain ⟨h1, h2, h3, h4⟩ := init_db_hasKey now rows
  refine seedList_noop default_configs now' (init_db_configs now rows) ?_
  intro s hs
  simp only [default_configs, List.mem_cons, List.not_mem_nil] at hs
  rcases hs with rfl | rfl | rfl | rfl | hfalse
  · exact h1
  · exact h2
  · exact h3
  · exact h4
  · cases hfalse

theorem init_db_get_preserved (now : Nat) (rows : List ConfigRow) (k : String)
    (h : hasKey rows k = true) :
    get_config_value (init_db_configs now rows) k = get_config_value rows k :=
  get_config_value_seedList default_configs now rows k h

/-- **C7** (confirmed): seeding never overwrites an existing key's value
(so initializing again after an update keeps the updated value), running the
initialization twice leaves the store literally unchanged, and after seeding
all four default keys are present. -/
theorem spec_c7 (rows : List ConfigRow) (now now' : Nat) (k : String)
    (h : hasKey rows k = true) :
    get_config_value (init_db_configs now rows) k = get_config_value rows k ∧
    init_db_configs now' (init_db_configs now rows) = init_db_configs now rows ∧
    (hasKey (init_db_configs now rows) "direct_multiplier" = true ∧
     hasKey (init_db_configs now rows) "walking_multiplier" = true ∧
     hasKey (init_db_configs now rows) "driving_multiplier" = true ∧
     hasKey (init_db_configs now rows) "default_unit" = true) :=
  ⟨init_db_get_preserved now rows k h, init_db_idem now now' rows, init_db_hasKey now rows⟩

/-- Witness for C7: a store whose `direct_multiplier` was updated to `"9.9"`
still reads `"9.9"` after re-running the seed step. -/
theorem spec_c7_witness :
    get_config_value
      (init_db_configs 1 [{ id := "direct_multiplier", name := "x", value := "9.9", updated_at := 5 }])
      "direct_multiplier" = some "9.9" :=
  ((spec_c7 [{ id := "direct_multiplier", name := "x", value := "9.9", updated_at := 5 }]
      1 2 "direct_multiplier" (by decide)).1).trans (by decide)

/-! ## Deletion lemmas (C8) -/

theorem length_filter_ne_id {α : Type} (f : α → String) (k : String) :
    ∀ l : List α, (l.map f).Nodup → (∃ x ∈ l, f x = k) →
      (l.filter (fun a => f a != k)).length + 1 = l.length := by
  intro l
  induction l with
  | nil => rintro _ ⟨x, hx, _⟩; cases hx
  | cons a t ih =>
    rintro hnd ⟨x, hx, hfx⟩
    rw [List.map_cons, List.nodup_cons] at hnd
    rcases List.mem_cons.mp hx with rfl | hxt
    · have hrest : t.filter (fun b => f b != k) = t := by
        refine List.filter_eq_self.mpr ?_
        intro b hb
        have hbk : f b ≠ k := fun hbk =>
          hnd.1 (by rw [hfx, ← hbk]; exact List.mem_map_of_mem f hb)
        simpa using hbk
      simp [List.filter_cons, hfx, hrest]
    · by_cases hak : f a = k
      · exact absurd (by rw [hak, ← hfx]; exact List.mem_map_of_mem f hxt) hnd.1
      · have hrec := ih hnd.2 ⟨x, hxt, hfx⟩
        have ha : (f a != k) = true := by simpa using hak
        simp only [List.filter_cons, ha, if_true, List.length_cons]
        omega

theorem deleteByKey_error_iff {α : Type} (f : α → String) (l : List α) (k : String) :
    (l.any (fun r => f r == k)) = false ↔ ∀ e ∈ l, f e ≠ k := by
  simp [List.any_eq_true]

/-- **C8** (confirmed): for both the history table and the calculations
table, deletion fails with `NotFound` exactly when no row carries the
requested id; when a row does, the call succeeds with exactly the rows of a
different id kept (membership is preserved for every other row, and — ids
being unique, as the SQL primary key guarantees — exactly one row is
removed). -/
theorem spec_c8 (history : List HistoryRow) (calculations : List CalcRow) (hid cid : String) :
    (delete_history_item history hid = .error .historyNotFound ↔ ∀ e ∈ history, e.id ≠ hid) ∧
    ((∃ e ∈ history, e.id = hid) →
      delete_history_item history hid = .ok (history.filter (fun r => r.id != hid))) ∧
    (∀ e, e ∈ history.filter (fun r => r.id != hid) ↔ e ∈ history ∧ e.id ≠ hid) ∧
    ((history.map (fun r => r.id)).Nodup → (∃ e ∈ history, e.id = hid) →
      (history.filter (fun r => r.id != hid)).length + 1 = history.length) ∧
    (delete_calculation calculations cid = .error .notFound ↔ ∀ e ∈ calculations, e.id ≠ cid) ∧
    ((∃ e ∈ calculations, e.id = cid) →
      delete_calculation calculations cid = .ok (calculations.filter (fun r => r.id != cid))) ∧
    (∀ e, e ∈ calculations.filter (fun r => r.id != cid) ↔ e ∈ calculations ∧ e.id ≠ cid) ∧
    ((calculations.map (fun r => r.id)).Nodup → (∃ e ∈ calculations, e.id = cid) →
      (calculations.filter (fun r => r.id != cid)).length + 1 = calculations.length) := by
  refine ⟨?_, ?_, ?_, length_filter_ne_id _ _ history, ?_, ?_, ?_,
    length_filter_ne_id _ _ calculations⟩
  · unfold delete_history_item
    by_cases h : history.any (fun r => r.id == hid)
    · rw [if_pos h]
      simp only [List.any_eq_true, beq_iff_eq] at h
      obtain ⟨e, he, hek⟩ := h
      exact iff_of_false (by intro hc; cases hc) (fun hall => absurd hek (hall e he))
    · rw [if_neg h]
      rw [Bool.not_eq_true] at h
      exact iff_of_true rfl ((deleteByKey_error_iff (fun r => r.id) history hid).mp h)
  · rintro ⟨e, he, hek⟩
    unfold delete_history_item
    rw [if_pos (List.any_eq_true.mpr ⟨e, he, by simp [hek]⟩)]
  · intro e; simp [List.mem_filter]
  · unfold delete_calculation
    by_cases h : calculations.any (fun r => r.id == cid)
    · rw [if_pos h]
      simp only [List.any_eq_true, beq_iff_eq] at h
      obtain ⟨e, he, hek⟩ := h
      exact iff_of_false (by intro hc; cases hc) (fun hall => absurd hek (hall e he))
    · rw [if_neg h]
      rw [Bool.not_eq_true] at h
      exact iff_of_true rfl ((deleteByKey_error_iff (fun r => r.id) calculations cid).mp h)
  · rintro ⟨e, he, hek⟩
    unfold delete_calculation
    rw [if_pos (List.any_eq_true.mpr ⟨e, he, by simp [hek]⟩)]
  · intro e; simp [List.mem_filter]

/-- Witness for C8: deleting an id absent from a one-row history table and
an id absent from an empty calculations table both fail with `NotFound`. -/
theorem spec_c8_witness :
    delete_history_item
      [{ id := "a", query_type := "address_query", query_data := "q", result := "r",
         created_at := 0 }] "zz" = .error .historyNotFound ∧
    delete_calculation [] "c1" = .error .notFound := by
  constructor
  · exact (spec_c8
      [{ id := "a", query_type := "address_query", query_data := "q", result := "r",
         created_at := 0 }] [] "zz" "c1").1.mpr (by decide)
  · exact (spec_c8 [] [] "zz" "c1").2.2.2.2.1.mpr (by simp)

/-! ## Coordinate synthesizer (C9) -/

theorem char_toLower_idem (c : Char) : c.toLower.toLower = c.toLower := by
  by_cases h : c.toNat ≥ 65 ∧ c.toNat ≤ 90
  · have h1 : c.toLower = Char.ofNat (c.toNat + 32) := by
      simp only [Char.toLower]
      rw [if_pos h]
    have hv : (c.toNat + 32).isValidChar := Or.inl (by omega)
    have ht : (Char.ofNat (c.toNat + 32)).toNat = c.toNat + 32 := by
      simp only [Char.ofNat, dif_pos hv]
      rfl
    rw [h1]
    simp only [Char.toLower, ht]
    rw [if_neg (by omega)]
  · have h1 : c.toLower = c := by
      simp only [Char.toLower]
      rw [if_neg h]
    rw [h1, h1]

theorem pyLower_idem (s : String) : pyLower (pyLower s) = pyLower s := by
  simp only [pyLower, List.map_map]
  exact congrArg String.mk (List.map_congr_left (fun c _ => char_toLower_idem c))

/-- **C9** (confirmed): the coordinate synthesizer is case-insensitive —
it returns the same point on the lowercased inputs — and, being a pure
function of its three string arguments, identical input text always yields
identical output. -/
theorem spec_c9 (city state address : String) :
    get_coordinates city state address =
      get_coordinates (pyLower city) (pyLower state) (pyLower address) ∧
    ∀ city' state' address', city = city' → state = state' → address = address' →
      get_coordinates city state address = get_coordinates city' state' address' := by
  constructor
  · simp only [get_coordinates, pyLower_idem]
  · rintro _ _ _ rfl rfl rfl
    rfl

/-- Witness for C9: a concrete mixed-case input agrees with its lowercased
form. -/
theorem spec_c9_witness :
    get_coordinates "AbC" "Xy" "Qw" = get_coordinates "abc" "xy" "qw" :=
  ((spec_c9 "AbC" "Xy" "Qw").1).trans
    (by rw [show pyLower "AbC" = "abc" from by decide,
            show pyLower "Xy" = "xy" from by decide,
            show pyLower "Qw" = "qw" from by decide])

/-! ## Unparseable multipliers (C10) -/

/-- **C10** (confirmed): when the configured `"{mode}_multiplier"` value is
present but not parseable as a float, `calculate_distance` raises the
unhandled conversion error (not a taxonomy error); and such a value is
reachable through the public update operation — updating the seeded store
with `{"direct_multiplier": "abc"}` succeeds, stores the literal `"abc"`,
and `"abc"` is unparseable. -/
theorem spec_c10 (configurations : List ConfigRow) (calculations : List CalcRow)
    (origin destination : OriginDestination) (mode calculation_id : String) (now : Nat)
    (v : String)
    (h1 : get_config_value configurations (mode ++ "_multiplier") = some v)
    (h2 : pyFloat v = none) :
    calculate_distance_sec configurations calculations origin destination mode
      calculation_id now = .error .valueError ∧
    update_configuration [("direct_multiplier", "abc")] (init_db_configs 0 []) 1 =
      .ok (["direct_multiplier"],
           (applyUpdates 1 [("direct_multiplier", "abc")] (init_db_configs 0 [])).2) ∧
    get_config_value (applyUpdates 1 [("direct_multiplier", "abc")] (init_db_configs 0 [])).2
      "direct_multiplier" = some "abc" ∧
    pyFloat "abc" = none := by
  have hpm : parsedMultiplier configurations mode = none := by
    simp [parsedMultiplier, h1, h2]
  refine ⟨?_, rfl, rfl, rfl⟩
  simp [calculate_distance_sec, hpm]

/-- Witness for C10: the post-update store drives the `direct` mode into the
unhandled conversion error. -/
theorem spec_c10_witness :
    calculate_distance_sec
      (applyUpdates 1 [("direct_multiplier", "abc")] (init_db_configs 0 [])).2 []
      { city := "a", state := "b", address := "c" }
      { city := "d", state := "e", address := "f" } "direct" "cid" 2 = .error .valueError :=
  (spec_c10 (applyUpdates 1 [("direct_multiplier", "abc")] (init_db_configs 0 [])).2 []
    { city := "a", state := "b", address := "c" }
    { city := "d", state := "e", address := "f" } "direct" "cid" 2 "abc"
    (by decide) (by decide)).1

/-! ## Orchestrator resolution (C2) -/

/-- **C2** (amended): the orchestrator resolves each side by a direct remote
fetch of the raw, unnormalised code — its outcome is independent of the
address cache, it never writes the address table — and every resolution
failure is propagated tagged with the side that failed (origin first, then
destination). -/
theorem spec_c2 (viaCep : String → FetchResult) (engine : EnginePayload → Except Nat EngineOk)
    (st : MainState) (now : Nat) (history_id : String) (request : DistanceRequest) :
    (∀ s, viaCep request.origin_cep = .httpError s →
      calculate_distance_main viaCep engine st now history_id request =
        .error (.originUpstream s)) ∧
    (∀ p, viaCep request.origin_cep = .ok p → p.erro = true →
      calculate_distance_main viaCep engine st now history_id request =
        .error .originNotFound) ∧
    (∀ p s, viaCep request.origin_cep = .ok p → p.erro = false →
      viaCep request.destination_cep = .httpError s →
      calculate_distance_main viaCep engine st now history_id request =
        .error (.destinationUpstream s)) ∧
    (∀ p q, viaCep request.origin_cep = .ok p → p.erro = false →
      viaCep request.destination_cep = .ok q → q.erro = true →
      calculate_distance_main viaCep engine st now history_id request =
        .error .destinationNotFound) ∧
    (∀ addresses', mainResultView (calculate_distance_main viaCep engine
        { addresses := addresses', history := st.history } now history_id request) =
      mainResultView (calculate_distance_main viaCep engine st now history_id request)) ∧
    (∀ resp st', calculate_distance_main viaCep engine st now history_id request =
        .ok (resp, st') → st'.addresses = st.addresses) := by
  refine ⟨?_, ?_, ?_, ?_, ?_, ?_⟩
  · intro s hs
    simp [calculate_distance_main, hs]
  · intro p hp he
    simp [calculate_distance_main, hp, he]
  · intro p s hp hpe hd
    simp [calculate_distance_main, hp, hpe, hd]
  · intro p q hp hpe hq hqe
    simp [calculate_distance_main, hp, hpe, hq, hqe]
  · intro addresses'
    unfold calculate_distance_main
    cases ho : viaCep request.origin_cep with
    | httpError s => rfl
    | ok p =>
      by_cases hp : p.erro
      · simp [hp]
      · simp only [hp, if_false, Bool.false_eq_true]
        cases hd : viaCep request.destination_cep with
        | httpError s => rfl
        | ok q =>
          by_cases hq : q.erro
          · simp [hq]
          · simp only [hq, if_false, Bool.false_eq_true]
            cases he : engine _ with
            | error s => rfl
            | ok d => rfl
  · intro resp st' h
    unfold calculate_distance_main at h
    cases ho : viaCep request.origin_cep with
    | httpError s => rw [ho] at h; cases h
    | ok p =>
      rw [ho] at h
      by_cases hp : p.erro
      · simp [hp] at h
      · simp only [hp, if_false, Bool.false_eq_true] at h
        cases hd : viaCep request.destination_cep with
        | httpError s => rw [hd] at h; cases h
        | ok q =>
          rw [hd] at h
          by_cases hq : q.erro
          · simp [hq] at h
          · simp only [hq, if_false, Bool.false_eq_true] at h
            cases he : engine _ with
            | error s => rw [he] at h; cases h
            | ok d =>
              rw [he] at h
              cases h
              rfl

/-- Witness for C2 (amended): a remote that answers HTTP 500 makes the
orchestrator fail origin-tagged. -/
theorem spec_c2_witness :
    calculate_distance_main (fun _ => .httpError 500) (fun _ => .error 500)
      { addresses := [], history := [] } 0 "h"
      { origin_cep := "01001000", destination_cep := "20040020", travel_mode := "direct" } =
      .error (.originUpstream 500) :=
  (spec_c2 (fun _ => .httpError 500) (fun _ => .error 500)
    { addresses := [], history := [] } 0 "h"
    { origin_cep := "01001000", destination_cep := "20040020", travel_mode := "direct" }).1
    500 rfl

/-- A concrete cached address row for postal code `01001000`. -/
def cacheRowSP : AddressRow :=
  { cep := "01001000", logradouro := "Praca da Se", complemento := "", bairro := "Se",
    localidade := "Sao Paulo", uf := "SP", ibge := "", gia := "", ddd := "", siafi := "",
    last_updated := 10 }

/-- **C2** (corrected) — counterexample to the claim as stated: with a
fresh cached record for the origin code and a remote that is down
(HTTP 500 on every call), `resolve` (§4.4, `get_address`) succeeds from the
cache, while the orchestrator's origin resolution inside `POST /distances`
fails upstream — so `computeTrip` does not resolve the origin by the same
procedure as `resolve` (it skips normalization, cache lookup, freshness
check and upsert and always calls the remote directly). -/
theorem spec_c2_counterexample :
    get_address (fun _ => .httpError 500) { addresses := [cacheRowSP], history := [] }
      20 "h1" "01001000" =
      .ok (rowToAddress cacheRowSP, { addresses := [cacheRowSP], history := [] }) ∧
    calculate_distance_main (fun _ => .httpError 500) (fun _ => .error 500)
      { addresses := [cacheRowSP], history := [] } 20 "h2"
      { origin_cep := "01001000", destination_cep := "20040020", travel_mode := "direct" } =
      .error (.originUpstream 500) :=
  ⟨rfl, rfl⟩

/-! ## Resolver case analysis (C3, C4) -/

/-- Exhaustive behaviour of `get_address` on an 8-digit (after
normalisation) postal code: fresh cache hit, upstream failure, remote
not-found, or remote success with upsert and history append. -/
theorem get_address_cases (viaCep : String → FetchResult) (st : MainState) (now : Nat)
    (history_id : String) (cep : String) (hlen : (digitsOnly cep).length = 8) :
    (∃ row, lookupAddress st.addresses (digitsOnly cep) = some row ∧
      now - row.last_updated < 30 ∧
      get_address viaCep st now history_id cep = .ok (rowToAddress row, st)) ∨
    (freshCacheHit st.addresses (digitsOnly cep) now = false ∧
      ((∃ s, viaCep (digitsOnly cep) = .httpError s ∧
          get_address viaCep st now history_id cep = .error (.upstream s)) ∨
       (∃ data, viaCep (digitsOnly cep) = .ok data ∧
          ((data.erro = true ∧
             get_address viaCep st now history_id cep = .error .notFound) ∨
           (data.erro = false ∧
             get_address viaCep st now history_id cep =
               .ok (payloadToAddress data,
                    remoteSuccessState st data (digitsOnly cep) history_id now)))))) := by
  cases hl : lookupAddress st.addresses (digitsOnly cep) with
  | some row =>
    by_cases hf : now - row.last_updated < 30
    · exact Or.inl ⟨row, rfl, hf, by simp [get_address, hlen, hl, hf]⟩
    · refine Or.inr ⟨by simp [freshCacheHit, hl, hf], ?_⟩
      cases hv : viaCep (digitsOnly cep) with
      | httpError s => exact Or.inl ⟨s, rfl, by simp [get_address, hlen, hl, hf, hv]⟩
      | ok data =>
        refine Or.inr ⟨data, rfl, ?_⟩
        by_cases he : data.erro
        · exact Or.inl ⟨he, by simp [get_address, hlen, hl, hf, hv, he]⟩
        · exact Or.inr ⟨by simpa using he, by simp [get_address, hlen, hl, hf, hv, he]⟩
  | none =>
    refine Or.inr ⟨by simp [freshCacheHit, hl], ?_⟩
    cases hv : viaCep (digitsOnly cep) with
    | httpError s => exact Or.inl ⟨s, rfl, by simp [get_address, hlen, hl, hv]⟩
    | ok data =>
      refine Or.inr ⟨data, rfl, ?_⟩
      by_cases he : data.erro
      · exact Or.inl ⟨he, by simp [get_address, hlen, hl, hv, he]⟩
      · exact Or.inr ⟨by simpa using he, by simp [get_address, hlen, hl, hv, he]⟩

/-- **C3** (amended): after a successful remote fetch for a normalised
8-digit code (no fresh cache hit beforehand, remote payload's postal code
normalising back to the queried code, as ViaCEP's does), a second `resolve`
within 30 days returns the *normalised cached* record — the fetched payload
with separators stripped from the postal code and missing optional fields
as empty strings — leaves the state unchanged (no new history entry, no
upsert), and performs no remote call (its result is the same under every
remote collaborator). -/
theorem spec_c3 (viaCep : String → FetchResult) (st : MainState) (now1 now2 : Nat)
    (hid1 : String) (cep : String) (data : ViaCepPayload)
    (hlen : (digitsOnly cep).length = 8)
    (hmiss : freshCacheHit st.addresses (digitsOnly cep) now1 = false)
    (hrem : viaCep (digitsOnly cep) = .ok data)
    (herr : data.erro = false)
    (hcep : replaceDash data.cep = digitsOnly cep)
    (h21 : now2 - now1 < 30) :
    get_address viaCep st now1 hid1 cep =
      .ok (payloadToAddress data, remoteSuccessState st data (digitsOnly cep) hid1 now1) ∧
    ∀ (viaCep' : String → FetchResult) (hid2 : String),
      get_address viaCep' (remoteSuccessState st data (digitsOnly cep) hid1 now1) now2 hid2 cep =
        .ok (rowToAddress (payloadToRow data now1),
             remoteSuccessState st data (digitsOnly cep) hid1 now1) := by
  constructor
  · rcases get_address_cases viaCep st now1 hid1 cep hlen with
      ⟨row, hl, hf, _⟩ | ⟨_, ⟨s, hv, _⟩ | ⟨d, hv, ⟨hde, _⟩ | ⟨hde, heq⟩⟩⟩
    · exact absurd hmiss (by simp [freshCacheHit, hl, hf])
    · rw [hrem] at hv; cases hv
    · rw [hrem] at hv; cases hv; rw [herr] at hde; cases hde
    · rw [hrem] at hv; cases hv; exact heq
  · intro viaCep' hid2
    have hhead : ((payloadToRow data now1).cep == digitsOnly cep) = true := by
      simp [payloadToRow, hcep]
    have hfind : List.find? (fun r => r.cep == digitsOnly cep)
        (payloadToRow data now1 ::
          st.addresses.filter (fun r => r.cep != (payloadToRow data now1).cep)) =
        some (payloadToRow data now1) :=
      List.find?_cons_of_pos _ hhead
    have hlast : (payloadToRow data now1).last_updated = now1 := rfl
    simp [get_address, hlen, remoteSuccessState, lookupAddress, upsertAddress, hfind,
      hlast, h21]

/-- A concrete ViaCEP payload (as ViaCEP formats it, the postal code carries
a separator). -/
def viaCepPayloadSP : ViaCepPayload :=
  { cep := "01001-000", logradouro := "Praca da Se", bairro := "Se",
    localidade := "Sao Paulo", uf := "SP", complemento := some "lado impar",
    ibge := some "3550308", gia := some "1004", ddd := some "11",
    siafi := some "7107", erro := false }

/-- **C3** (corrected) — counterexample to the claim as stated: resolving
`01001000` from an empty cache fetches remotely and returns the payload
verbatim (postal code `"01001-000"`, with separator); the second call within
30 days is served from the cache with no new history entry — but returns the
*normalised* record (postal code `"01001000"`), which is *not* identical to
the first call's record. -/
theorem spec_c3_counterexample :
    get_address (fun _ => .ok viaCepPayloadSP) { addresses := [], history := [] }
      0 "h1" "01001000" =
      .ok (payloadToAddress viaCepPayloadSP,
           remoteSuccessState { addresses := [], history := [] } viaCepPayloadSP
             "01001000" "h1" 0) ∧
    get_address (fun _ => .ok viaCepPayloadSP)
      (remoteSuccessState { addresses := [], history := [] } viaCepPayloadSP
        "01001000" "h1" 0) 5 "h2" "01001000" =
      .ok (rowToAddress (payloadToRow viaCepPayloadSP 0),
           remoteSuccessState { addresses := [], history := [] } viaCepPayloadSP
             "01001000" "h1" 0) ∧
    payloadToAddress viaCepPayloadSP ≠ rowToAddress (payloadToRow viaCepPayloadSP 0) :=
  ⟨rfl, rfl, by decide⟩

/-- Witness for C3 (amended), at the concrete ViaCEP payload and an empty
cache: the first call at day 3 fetches remotely; the certified conclusion
covers the day-10 second call. -/
theorem spec_c3_witness :
    get_address (fun _ => .ok viaCepPayloadSP) { addresses := [], history := [] }
      3 "h9" "01001000" =
      .ok (payloadToAddress viaCepPayloadSP,
           remoteSuccessState { addresses := [], history := [] } viaCepPayloadSP
             "01001000" "h9" 3) :=
  (spec_c3 (fun _ => .ok viaCepPayloadSP) { addresses := [], history := [] } 3 10 "h9"
    "01001000" viaCepPayloadSP (by decide) rfl rfl rfl (by decide) (by decide)).1

/-- **C4** (amended): a code not normalising to 8 digits fails
`InvalidFormat` regardless of the state and of the remote collaborator
(before any storage or network effect); an 8-digit code either succeeds —
with the record's postal code equal to the normalised input when served
from cache, and equal to the remote payload's postal code verbatim when
served by a remote fetch — or fails with `NotFound` or an upstream error. -/
theorem spec_c4 (cep : String) :
    ((digitsOnly cep).length ≠ 8 →
      ∀ (viaCep : String → FetchResult) (st : MainState) (now : Nat) (hid : String),
        get_address viaCep st now hid cep = .error .invalidFormat) ∧
    ((digitsOnly cep).length = 8 →
      ∀ (viaCep : String → FetchResult) (st : MainState) (now : Nat) (hid : String),
        (∀ a st', get_address viaCep st now hid cep = .ok (a, st') →
          a.cep = digitsOnly cep ∨
          ∃ data, viaCep (digitsOnly cep) = .ok data ∧ data.erro = false ∧
            a = payloadToAddress data) ∧
        (∀ e, get_address viaCep st now hid cep = .error e →
          e = .notFound ∨ ∃ s, e = .upstream s)) := by
  constructor
  · intro hne viaCep st now hid
    simp [get_address, hne]
  · intro hlen viaCep st now hid
    constructor
    · intro a st' h
      rcases get_address_cases viaCep st now hid cep hlen with
        ⟨row, hl, _, heq⟩ | ⟨_, ⟨s, _, heq⟩ | ⟨data, hv, ⟨_, heq⟩ | ⟨hde, heq⟩⟩⟩
      · rw [heq] at h
        cases h
        exact Or.inl (by
          have := List.find?_some hl
          simp only [beq_iff_eq] at this
          simpa [rowToAddress] using this)
      · rw [heq] at h; cases h
      · rw [heq] at h; cases h
      · rw [heq] at h
        cases h
        exact Or.inr ⟨data, hv, hde, rfl⟩
    · intro e h
      rcases get_address_cases viaCep st now hid cep hlen with
        ⟨row, _, _, heq⟩ | ⟨_, ⟨s, _, heq⟩ | ⟨data, _, ⟨_, heq⟩ | ⟨_, heq⟩⟩⟩
      · rw [heq] at h; cases h
      · rw [heq] at h; cases h; exact Or.inr ⟨s, rfl⟩
      · rw [heq] at h; cases h; exact Or.inl rfl
      · rw [heq] at h; cases h

/-- **C4** (corrected) — counterexample to the claim as stated: the input
`"01001-000"` normalises to the 8 digits `"01001000"`, the remote fetch
succeeds, but the returned record's postal code is the remote payload's
`"01001-000"` verbatim, not the normalised input. -/
theorem spec_c4_counterexample :
    (digitsOnly "01001-000").length = 8 ∧
    get_address (fun _ => .ok viaCepPayloadSP) { addresses := [], history := [] }
      0 "h" "01001-000" =
      .ok (payloadToAddress viaCepPayloadSP,
           remoteSuccessState { addresses := [], history := [] } viaCepPayloadSP
             "01001000" "h" 0) ∧
    (payloadToAddress viaCepPayloadSP).cep ≠ digitsOnly "01001-000" :=
  ⟨by decide, rfl, by decide⟩

/-- Witness for C4 (amended): a 3-digit input fails `InvalidFormat` whatever
the state and remote. -/
theorem spec_c4_witness :
    get_address (fun _ => .httpError 500) { addresses := [], history := [] } 0 "h" "abc" =
      .error .invalidFormat :=
  (spec_c4 "abc").1 (by decide) (fun _ => .httpError 500)
    { addresses := [], history := [] } 0 "h"

/-! ## Distance formula (C5) -/

theorem calculate_haversine_eq_spec (lat1 lon1 lat2 lon2 : ℝ) :
    calculate_haversine_distance lat1 lon1 lat2 lon2 = haversineSpec lat1 lon1 lat2 lon2 := by
  simp only [calculate_haversine_distance, haversineSpec]
  ring

/-- **C5** (amended): whenever the configured multiplier value parses (or
is absent, in which case it is 1.0 — not an error), the computed distance is
the spec formula: haversine great-circle distance with R = 6371.0 km over
the synthesized points, times the `"{mode}_multiplier"` value, times
0.621371 exactly when the configured `default_unit` is `"mi"`
case-insensitively (default `"km"`), rounded to two decimal places; the
returned unit is the configured one. -/
theorem spec_c5 (configurations : List ConfigRow) (calculations : List CalcRow)
    (origin destination : OriginDestination) (mode calculation_id : String) (now : Nat)
    (m : ℚ) (hm : parsedMultiplier configurations mode = some m) :
    isOkResult (calculate_distance_sec configurations calculations origin destination mode
      calculation_id now) = true ∧
    respDistance (calculate_distance_sec configurations calculations origin destination mode
      calculation_id now) =
      round2 (haversineSpec
        ((get_coordinates origin.city origin.state origin.address).1 : ℝ)
        ((get_coordinates origin.city origin.state origin.address).2 : ℝ)
        ((get_coordinates destination.city destination.state destination.address).1 : ℝ)
        ((get_coordinates destination.city destination.state destination.address).2 : ℝ) *
        (m : ℝ) * milesFactor configurations) ∧
    respUnit (calculate_distance_sec configurations calculations origin destination mode
      calculation_id now) = defaultUnit configurations := by
  simp only [calculate_distance_sec, hm]
  refine ⟨rfl, ?_, rfl⟩
  simp only [respDistance, calculate_haversine_eq_spec, milesFactor, defaultUnit]
  by_cases hu : pyLower ((get_config_value configurations "default_unit").getD "km") = "mi"
  · simp only [hu, if_true]
  · simp only [hu, if_false, mul_one]

/-- **C5** (corrected) — counterexample to the claim as stated: the claim
quantifies over every configuration state, but under the state whose
`direct_multiplier` holds the unparseable string `"abc"` (reachable through
the public update operation, see C10) compute returns no number at all —
it fails with the unhandled conversion error. -/
theorem spec_c5_counterexample :
    calculate_distance_sec
      (applyUpdates 3 [("direct_multiplier", "abc")] (init_db_configs 0 [])).2 []
      { city := "p", state := "q", address := "r" }
      { city := "s", state := "t", address := "u" } "direct" "cidX" 4 =
      .error .valueError := by
  have h1 : get_config_value
      (applyUpdates 3 [("direct_multiplier", "abc")] (init_db_configs 0 [])).2
      "direct_multiplier" = some "abc" := by decide
  have h2 : pyFloatParts "abc" = none := by decide
  have hpm : parsedMultiplier
      (applyUpdates 3 [("direct_multiplier", "abc")] (init_db_configs 0 [])).2 "direct" =
      none := by
    simp [parsedMultiplier, h1, pyFloat, h2]
  simp [calculate_distance_sec, hpm]

/-- Witness for C5 (amended): the freshly seeded store with mode `direct`
(multiplier `"1.2"`) yields a successful computation. -/
theorem spec_c5_witness :
    isOkResult (calculate_distance_sec (init_db_configs 0 [])
      [] { city := "a", state := "b", address := "c" }
      { city := "d", state := "e", address := "f" } "direct" "cid" 2) = true :=
  (spec_c5 (init_db_configs 0 []) [] { city := "a", state := "b", address := "c" }
    { city := "d", state := "e", address := "f" } "direct" "cid" 2
    (partsToRat { sign := 1, ipart := 1, fpart := 2, fracLen := 1, expo := 0 })
    (by
      have h1 : get_config_value (init_db_configs 0 []) "direct_multiplier" =
          some "1.2" := by decide
      have h2 : pyFloatParts "1.2" =
          some { sign := 1, ipart := 1, fpart := 2, fracLen := 1, expo := 0 } := by decide
      simp [parsedMultiplier, h1, pyFloat, h2])).1

/-! ## Sign of the computed distance (C6) -/

theorem haversine_nonneg (lat1 lon1 lat2 lon2 : ℝ) :
    0 ≤ calculate_haversine_distance lat1 lon1 lat2 lon2 := by
  simp only [calculate_haversine_distance]
  have h := Real.arcsin_nonneg.mpr (Real.sqrt_nonneg
    (Real.sin ((radians lat2 - radians lat1) / 2) ^ 2 +
      Real.cos (radians lat1) * Real.cos (radians lat2) *
        Real.sin ((radians lon2 - radians lon1) / 2) ^ 2))
  nlinarith

theorem round2_nonneg (x : ℝ) (hx : 0 ≤ x) : 0 ≤ round2 x := by
  simp only [round2]
  apply div_nonneg _ (by norm_num)
  have h : (0 : ℤ) ≤ round (100 * x) := by
    rw [round_eq]
    exact Int.floor_nonneg.mpr (by linarith)
  exact_mod_cast h

theorem round2_neg_of_lt (x : ℝ) (hx : x < -(1 / 200)) : round2 x < 0 := by
  simp only [round2]
  apply div_neg_of_neg_of_pos _ (by norm_num)
  have h : ((round (100 * x) : ℤ) : ℝ) ≤ 100 * x + 1 / 2 := by
    rw [round_eq]
    exact_mod_cast Int.floor_le (100 * x + 1 / 2)
  linarith

/-- **C6** (amended): whenever the multiplier in effect is non-negative —
as all seeded defaults are — a computation succeeds with a non-negative
distance, and every row of the resulting calculations table is either an
old row or carries exactly that non-negative distance. -/
theorem spec_c6 (configurations : List ConfigRow) (calculations : List CalcRow)
    (origin destination : OriginDestination) (mode calculation_id : String) (now : Nat)
    (m : ℚ) (hm : parsedMultiplier configurations mode = some m) (hnn : 0 ≤ m) :
    isOkResult (calculate_distance_sec configurations calculations origin destination mode
      calculation_id now) = true ∧
    0 ≤ respDistance (calculate_distance_sec configurations calculations origin destination
      mode calculation_id now) ∧
    ∀ row ∈ storedCalcs (calculate_distance_sec configurations calculations origin
        destination mode calculation_id now),
      row ∈ calculations ∨
        row.distance = respDistance (calculate_distance_sec configurations calculations
          origin destination mode calculation_id now) := by
  have hnnR : (0 : ℝ) ≤ (m : ℚ) := by exact_mod_cast hnn
  simp only [calculate_distance_sec, hm]
  refine ⟨rfl, ?_, ?_⟩
  · simp only [respDistance]
    apply round2_nonneg
    by_cases hu : pyLower ((get_config_value configurations "default_unit").getD "km") = "mi"
    · simp only [hu, if_true]
      have := haversine_nonneg
        ((get_coordinates origin.city origin.state origin.address).1 : ℝ)
        ((get_coordinates origin.city origin.state origin.address).2 : ℝ)
        ((get_coordinates destination.city destination.state destination.address).1 : ℝ)
        ((get_coordinates destination.city destination.state destination.address).2 : ℝ)
      nlinarith
    · simp only [hu, if_false]
      have := haversine_nonneg
        ((get_coordinates origin.city origin.state origin.address).1 : ℝ)
        ((get_coordinates origin.city origin.state origin.address).2 : ℝ)
        ((get_coordinates destination.city destination.state destination.address).1 : ℝ)
        ((get_coordinates destination.city destination.state destination.address).2 : ℝ)
      nlinarith
  · intro row hrow
    simp only [storedCalcs, List.mem_cons] at hrow
    rcases hrow with rfl | hold
    · exact Or.inr rfl
    · exact Or.inl hold

/-- Witness for C6 (amended): the seeded store with mode `direct` gives a
non-negative distance. -/
theorem spec_c6_witness :
    0 ≤ respDistance (calculate_distance_sec (init_db_configs 0 [])
      [] { city := "a", state := "b", address := "c" }
      { city := "d", state := "e", address := "f" } "direct" "cid" 2) :=
  (spec_c6 (init_db_configs 0 []) [] { city := "a", state := "b", address := "c" }
    { city := "d", state := "e", address := "f" } "direct" "cid" 2
    (partsToRat { sign := 1, ipart := 1, fpart := 2, fracLen := 1, expo := 0 })
    (by
      have h1 : get_config_value (init_db_configs 0 []) "direct_multiplier" =
          some "1.2" := by decide
      have h2 : pyFloatParts "1.2" =
          some { sign := 1, ipart := 1, fpart := 2, fracLen := 1, expo := 0 } := by decide
      simp [parsedMultiplier, h1, pyFloat, h2])
    (by norm_num [partsToRat])).2.1

/-! ## Concrete lower bound on a haversine distance (for the C6
counterexample): origin `("a", "i", "x")` and destination `("a", "xx", "x")`
synthesize to equal latitudes and longitudes exactly 30° apart, giving a
base distance of several thousand kilometres. -/

theorem arcsin_sqrt_lower (a : ℝ) (h1 : 0.048 ≤ a) (h2 : a ≤ 1) :
    (0.21 : ℝ) ≤ Real.arcsin (Real.sqrt a) := by
  have hs1 : (0.21 : ℝ) ≤ Real.sqrt a := by
    rw [Real.le_sqrt (by norm_num) (by linarith)]
    nlinarith
  have hs2 : Real.sqrt a ≤ 1 := by
    rw [show (1 : ℝ) = Real.sqrt 1 from Real.sqrt_one.symm]
    exact Real.sqrt_le_sqrt h2
  have hy0 : 0 < Real.arcsin (Real.sqrt a) := Real.arcsin_pos.mpr (by linarith)
  have hsin : Real.sin (Real.arcsin (Real.sqrt a)) = Real.sqrt a :=
    Real.sin_arcsin (by linarith) hs2
  have hlt := Real.sin_lt hy0
  rw [hsin] at hlt
  linarith

theorem concrete_a_bounds (l : ℝ) (hl0 : 0 ≤ l) (hl : l ≤ Real.pi / 6) :
    0.048 ≤ Real.cos l * Real.cos l * Real.sin (Real.pi / 6 / 2) ^ 2 ∧
    Real.cos l * Real.cos l * Real.sin (Real.pi / 6 / 2) ^ 2 ≤ 1 := by
  have hs : Real.sin (Real.pi / 6 / 2) ^ 2 = 1 / 2 - Real.sqrt 3 / 4 := by
    have h := Real.sin_sq_eq_half_sub (Real.pi / 6 / 2)
    rw [show 2 * (Real.pi / 6 / 2) = Real.pi / 6 by ring, Real.cos_pi_div_six] at h
    rw [h]
    ring
  have hsqrt3_lt : Real.sqrt 3 < 1.74 :=
    (Real.sqrt_lt' (by norm_num)).mpr (by norm_num)
  have hsqrt3_nn : (0 : ℝ) ≤ Real.sqrt 3 := Real.sqrt_nonneg 3
  have h3 : Real.sqrt 3 * Real.sqrt 3 = 3 := Real.mul_self_sqrt (by norm_num)
  have hcos : Real.sqrt 3 / 2 ≤ Real.cos l := by
    have h := Real.cos_le_cos_of_nonneg_of_le_pi hl0
      (by linarith [Real.pi_pos] : Real.pi / 6 ≤ Real.pi) hl
    rwa [Real.cos_pi_div_six] at h
  have hcos1 : Real.cos l ≤ 1 := Real.cos_le_one l
  have hcos0 : (0 : ℝ) ≤ Real.cos l := le_trans (by positivity) hcos
  have h34 : (3 : ℝ) / 4 ≤ Real.cos l * Real.cos l := by
    have hcc := mul_le_mul hcos hcos (by positivity) hcos0
    nlinarith
  constructor
  · rw [hs]
    nlinarith
  · rw [hs]
    nlinarith

theorem haversine_lower_of (lat1 lon1 lat2 lon2 : ℝ)
    (h1 : 0.048 ≤ Real.sin ((radians lat2 - radians lat1) / 2) ^ 2 +
      Real.cos (radians lat1) * Real.cos (radians lat2) *
        Real.sin ((radians lon2 - radians lon1) / 2) ^ 2)
    (h2 : Real.sin ((radians lat2 - radians lat1) / 2) ^ 2 +
      Real.cos (radians lat1) * Real.cos (radians lat2) *
        Real.sin ((radians lon2 - radians lon1) / 2) ^ 2 ≤ 1) :
    (2500 : ℝ) ≤ calculate_haversine_distance lat1 lon1 lat2 lon2 := by
  simp only [calculate_haversine_distance]
  have h := arcsin_sqrt_lower _ h1 h2
  nlinarith

theorem haversine_concrete_lower :
    (2500 : ℝ) ≤ calculate_haversine_distance (-399 / 50) (-3499 / 50)
      (-399 / 50) (-1999 / 50) := by
  have hd0 : radians (-399 / 50) - radians (-399 / 50) = 0 := sub_self _
  have hd6 : radians (-1999 / 50) - radians (-3499 / 50) = Real.pi / 6 := by
    simp only [radians]
    ring
  have hlneg : radians (-399 / 50) = -(399 / 9000 * Real.pi) := by
    simp only [radians]
    ring
  have hl0 : (0 : ℝ) ≤ 399 / 9000 * Real.pi := by positivity
  have hl6 : (399 : ℝ) / 9000 * Real.pi ≤ Real.pi / 6 := by
    nlinarith [Real.pi_pos]
  have hb := concrete_a_bounds (399 / 9000 * Real.pi) hl0 hl6
  apply haversine_lower_of
  · rw [hd0, hd6, hlneg, Real.cos_neg]
    rw [show (0 : ℝ) / 2 = 0 by norm_num, Real.sin_zero]
    rw [show Real.pi / 6 / 2 = Real.pi / 6 / 2 from rfl]
    calc (0.048 : ℝ) ≤ Real.cos (399 / 9000 * Real.pi) * Real.cos (399 / 9000 * Real.pi) *
          Real.sin (Real.pi / 6 / 2) ^ 2 := hb.1
      _ = 0 ^ 2 + Real.cos (399 / 9000 * Real.pi) * Real.cos (399 / 9000 * Real.pi) *
          Real.sin (Real.pi / 6 / 2) ^ 2 := by ring
  · rw [hd0, hd6, hlneg, Real.cos_neg]
    rw [show (0 : ℝ) / 2 = 0 by norm_num, Real.sin_zero]
    calc (0 : ℝ) ^ 2 + Real.cos (399 / 9000 * Real.pi) * Real.cos (399 / 9000 * Real.pi) *
          Real.sin (Real.pi / 6 / 2) ^ 2
        = Real.cos (399 / 9000 * Real.pi) * Real.cos (399 / 9000 * Real.pi) *
          Real.sin (Real.pi / 6 / 2) ^ 2 := by ring
      _ ≤ 1 := hb.2

/-- **C6** (corrected) — counterexample to the claim as stated: the
configured multiplier is an arbitrary writable string, so
`{"direct_multiplier": "-2"}` is accepted by the public update operation
(the configuration state is reachable), after which a `direct` computation
between two distinct synthesized points succeeds and returns — and stores —
a strictly negative distance. -/
theorem spec_c6_counterexample :
    update_configuration [("direct_multiplier", "-2")] (init_db_configs 0 []) 1 =
      .ok (["direct_multiplier"],
        (applyUpdates 1 [("direct_multiplier", "-2")] (init_db_configs 0 [])).2) ∧
    isOkResult (calculate_distance_sec
      (applyUpdates 1 [("direct_multiplier", "-2")] (init_db_configs 0 [])).2 []
      { city := "a", state := "i", address := "x" }
      { city := "a", state := "xx", address := "x" } "direct" "cid" 2) = true ∧
    respDistance (calculate_distance_sec
      (applyUpdates 1 [("direct_multiplier", "-2")] (init_db_configs 0 [])).2 []
      { city := "a", state := "i", address := "x" }
      { city := "a", state := "xx", address := "x" } "direct" "cid" 2) < 0 := by
  have hm : parsedMultiplier
      (applyUpdates 1 [("direct_multiplier", "-2")] (init_db_configs 0 [])).2 "direct" =
      some (partsToRat { sign := -1, ipart := 2, fpart := 0, fracLen := 0, expo := 0 }) := by
    have h1 : get_config_value
        (applyUpdates 1 [("direct_multiplier", "-2")] (init_db_configs 0 [])).2
        "direct_multiplier" = some "-2" := by decide
    have h2 : pyFloatParts "-2" =
        some { sign := -1, ipart := 2, fpart := 0, fracLen := 0, expo := 0 } := by decide
    simp [parsedMultiplier, h1, pyFloat, h2]
  have hu : (get_config_value
      (applyUpdates 1 [("direct_multiplier", "-2")] (init_db_configs 0 [])).2
      "default_unit").getD "km" = "km" := by decide
  have hpl : pyLower "km" = "km" := by decide
  refine ⟨rfl, ?_, ?_⟩
  · simp only [calculate_distance_sec, hm]
    rfl
  · simp only [calculate_distance_sec, hm, respDistance, hu, hpl]
    rw [if_neg (by decide : ¬("km" = "mi"))]
    have hco : get_coordinates "a" "i" "x" = (-399 / 50, -3499 / 50) := by
      have h1 : ordSum (pyLower "a") % 25 = 22 := by decide
      have h2 : ordSum (pyLower "i") % 35 = 0 := by decide
      have h3 : ordSum (pyLower "x") % 100 = 20 := by decide
      simp only [get_coordinates, h1, h2, h3]
      norm_num
    have hcd : get_coordinates "a" "xx" "x" = (-399 / 50, -1999 / 50) := by
      have h1 : ordSum (pyLower "a") % 25 = 22 := by decide
      have h2 : ordSum (pyLower "xx") % 35 = 30 := by decide
      have h3 : ordSum (pyLower "x") % 100 = 20 := by decide
      simp only [get_coordinates, h1, h2, h3]
      norm_num
    have hmcast :
        ((partsToRat { sign := -1, ipart := 2, fpart := 0, fracLen := 0, expo := 0 } : ℚ) : ℝ) =
          -2 := by
      norm_num [partsToRat]
    have e1 : ((get_coordinates "a" "i" "x").1 : ℝ) = -399 / 50 := by
      rw [hco]; norm_num
    have e2 : ((get_coordinates "a" "i" "x").2 : ℝ) = -3499 / 50 := by
      rw [hco]; norm_num
    have e3 : ((get_coordinates "a" "xx" "x").1 : ℝ) = -399 / 50 := by
      rw [hcd]; norm_num
    have e4 : ((get_coordinates "a" "xx" "x").2 : ℝ) = -1999 / 50 := by
      rw [hcd]; norm_num
    show round2 (calculate_haversine_distance
        ((get_coordinates "a" "i" "x").1 : ℝ) ((get_coordinates "a" "i" "x").2 : ℝ)
        ((get_coordinates "a" "xx" "x").1 : ℝ) ((get_coordinates "a" "xx" "x").2 : ℝ) *
        ((partsToRat { sign := -1, ipart := 2, fpart := 0, fracLen := 0, expo := 0 } : ℚ) : ℝ))
      < 0
    rw [e1, e2, e3, e4, hmcast]
    apply round2_neg_of_lt
    nlinarith [haversine_concrete_lower]

end DistSys
